import Mathlib

/-!
Shallow embedding of `src/lbo_model.py` (class `LBOAnalysis`), the LBO
financial modeling tool.  Money amounts and rates are modelled as exact
rationals (the Python floats), the real-power appearing in the IRR formula
as `Real.rpow`, and fallible Python code (KeyError / IndexError /
ZeroDivisionError, and the `print`-and-`return None` precondition guards)
as `Option`-valued functions returning `none` on failure.

The class attributes `debt_structure`, `operating_model`, `debt_schedule`
and `returns_analysis` become explicit arguments of the methods that read
them; an unset attribute (`{}` in Python, which is falsy) is the empty list.
Python dicts that are built in a fixed insertion order become ordered
association lists.
-/

/-- One tranche of the debt structure: the per-tranche constants stored by
`structure_debt` (`amount`, `rate`, `term`, `amortization`, `seniority`). -/
structure Tranche where
  amount : ℚ
  rate : ℚ
  term : ℕ
  amortization : ℚ
  seniority : ℕ
deriving DecidableEq

/-- `LBOAnalysis.structure_debt`: the four named tranches with their baked-in
rate / term / amortization / seniority constants, in the dict's insertion
order.  Callers supply only the principal amounts. -/
def structure_debt (term_loan_a term_loan_b revolver subordinated : ℚ) :
    List (String × Tranche) :=
  [("Term Loan A", ⟨term_loan_a, 0.045, 7, 0.15, 1⟩),
   ("Term Loan B", ⟨term_loan_b, 0.065, 8, 0.01, 2⟩),
   ("Revolver", ⟨revolver, 0.035, 5, 0.0, 1⟩),
   ("Subordinated Debt", ⟨subordinated, 0.085, 10, 0.0, 3⟩)]

/-- One year of the operating model: the record stored in
`build_operating_model`'s `model[year]`, fields in the dict's order. -/
structure OperatingYear where
  revenue : ℚ
  ebitda : ℚ
  ebit : ℚ
  depreciation : ℚ
  interest_expense : ℚ
  ebt : ℚ
  taxes : ℚ
  net_income : ℚ
  operating_cash_flow : ℚ
  capex : ℚ
  nwc_change : ℚ
  free_cash_flow : ℚ
deriving DecidableEq

/-- The interest-expense block of `build_operating_model` (lines 132-144):
zero when no debt structure has been set, otherwise total original principal
times the principal-weighted average rate (zero-guarded) times the
`0.9 ^ (year - 1)` debt-reduction factor. -/
def interestExpense (debt_structure : List (String × Tranche)) (year : ℕ) : ℚ :=
  if debt_structure = [] then 0
  else
    let total_debt_amount := (debt_structure.map (fun t => t.2.amount)).sum
    let weighted_avg_rate :=
      if total_debt_amount > 0 then
        (debt_structure.map (fun t => t.2.amount * t.2.rate)).sum / total_debt_amount
      else 0
    let debt_reduction_factor := (0.9 : ℚ) ^ (year - 1)
    total_debt_amount * weighted_avg_rate * debt_reduction_factor

/-- The growth-rate lookup of `build_operating_model` line 124:
`revenue_growth[i-1] if i-1 < len(revenue_growth) else revenue_growth[-1]`.
`revenue_growth[-1]` on an empty list raises `IndexError`, hence `none`. -/
def growthAt (revenue_growth : List ℚ) (i : ℕ) : Option ℚ :=
  if i < revenue_growth.length then revenue_growth.get? i
  else revenue_growth.getLast?

/-- The body of `build_operating_model`'s per-year loop, given this year's
revenue and the previous year's revenue. -/
def mkYear (debt_structure : List (String × Tranche))
    (ebitda_margin capex_rate nwc_rate tax_rate : ℚ)
    (year : ℕ) (revenue prev_revenue : ℚ) : OperatingYear :=
  let ebitda := revenue * ebitda_margin
  let depreciation := revenue * 0.03
  let ebit := ebitda - depreciation
  let interest_expense := interestExpense debt_structure year
  let ebt := ebit - interest_expense
  let taxes := max 0 (ebt * tax_rate)
  let net_income := ebt - taxes
  let operating_cash_flow := net_income + depreciation
  let capex := revenue * capex_rate
  let nwc_change := if year = 1 then 0 else (revenue - prev_revenue) * nwc_rate
  let free_cash_flow := operating_cash_flow - capex - nwc_change
  { revenue := revenue, ebitda := ebitda, ebit := ebit,
    depreciation := depreciation, interest_expense := interest_expense,
    ebt := ebt, taxes := taxes, net_income := net_income,
    operating_cash_flow := operating_cash_flow, capex := capex,
    nwc_change := nwc_change, free_cash_flow := free_cash_flow }

/-- The year loop of `build_operating_model`: `n` remaining years starting at
`year`, threading the previous year's revenue.  Fails (`none`) exactly when
the growth-rate lookup raises. -/
def buildModelAux (debt_structure : List (String × Tranche))
    (base_revenue : ℚ) (revenue_growth : List ℚ)
    (ebitda_margin capex_rate nwc_rate tax_rate : ℚ) :
    ℚ → ℕ → ℕ → Option (List OperatingYear)
  | _, _, 0 => some []
  | prev_revenue, year, n + 1 => do
    let revenueOpt : Option ℚ :=
      if year = 1 then some base_revenue
      else Option.map (fun g => prev_revenue * (1 + g))
        (growthAt revenue_growth (year - 2))
    let revenue ← revenueOpt
    let record := mkYear debt_structure ebitda_margin capex_rate nwc_rate
      tax_rate year revenue prev_revenue
    let rest ← buildModelAux debt_structure base_revenue revenue_growth
      ebitda_margin capex_rate nwc_rate tax_rate revenue (year + 1) n
    pure (record :: rest)

/-- `LBOAnalysis.build_operating_model`: the fixed five projection years
`[1, 2, 3, 4, 5]`.  The result list is indexed so that position `k` holds
year `k + 1`. -/
def build_operating_model (debt_structure : List (String × Tranche))
    (base_revenue : ℚ) (revenue_growth : List ℚ)
    (ebitda_margin capex_rate nwc_rate tax_rate : ℚ) :
    Option (List OperatingYear) :=
  buildModelAux debt_structure base_revenue revenue_growth ebitda_margin
    capex_rate nwc_rate tax_rate 0 1 5

/-- Per-tranche-per-year record of `model_debt_schedule`
(`year_schedule[tranche]`), fields in the dict's order. -/
structure TrancheYearState where
  beginning_balance : ℚ
  mandatory_payment : ℚ
  optional_payment : ℚ
  total_payment : ℚ
  interest_payment : ℚ
  ending_balance : ℚ
deriving DecidableEq

/-- The body of `model_debt_schedule`'s per-tranche loop (lines 212-237),
given the cash pool remaining when this tranche's turn comes. -/
def processTranche (remaining_cash : ℚ) (tranche : String) (terms : Tranche)
    (beginning_balance : ℚ) : TrancheYearState :=
  let mandatory_payment := beginning_balance * terms.amortization
  let mandatory_payment := min mandatory_payment beginning_balance
  let optional_payment :=
    if remaining_cash > mandatory_payment ∧ tranche = "Term Loan B" then
      min (remaining_cash - mandatory_payment)
        (beginning_balance - mandatory_payment)
    else 0
  let total_payment := mandatory_payment + optional_payment
  let ending_balance := max 0 (beginning_balance - total_payment)
  let interest_payment := beginning_balance * terms.rate
  { beginning_balance := beginning_balance,
    mandatory_payment := mandatory_payment,
    optional_payment := optional_payment,
    total_payment := total_payment,
    interest_payment := interest_payment,
    ending_balance := ending_balance }

/-- One year of `model_debt_schedule`: fold over the tranches (paired with
their current balances) in insertion order, decrementing the shared cash
pool by each tranche's total payment; returns the year's records and the
final pool value. -/
def processTranches (remaining_cash : ℚ) :
    List ((String × Tranche) × ℚ) →
      List (String × TrancheYearState) × ℚ
  | [] => ([], remaining_cash)
  | ((tranche, terms), bal) :: rest =>
    let st := processTranche remaining_cash tranche terms bal
    let r := processTranches (remaining_cash - st.total_payment) rest
    ((tranche, st) :: r.1, r.2)

/-- The year loop of `model_debt_schedule` (lines 207-243): each year reads
that year's free cash flow (`none` on a missing year, Python `KeyError`) and
carries the ending balances forward. -/
def scheduleYears (debt_structure : List (String × Tranche))
    (operating_model : List OperatingYear) :
    List ℚ → List ℕ →
      Option (List (List (String × TrancheYearState)))
  | _, [] => some []
  | debt_balances, year :: years => do
    let oy ← operating_model.get? (year - 1)
    let year_schedule :=
      (processTranches oy.free_cash_flow
        (debt_structure.zip debt_balances)).1
    let rest ← scheduleYears debt_structure operating_model
      (year_schedule.map (fun p => p.2.ending_balance)) years
    pure (year_schedule :: rest)

/-- `LBOAnalysis.model_debt_schedule`: guard (line 195) requiring both the
debt structure and the operating model, then the five-year schedule starting
from the tranche principals. -/
def model_debt_schedule (debt_structure : List (String × Tranche))
    (operating_model : List OperatingYear) :
    Option (List (List (String × TrancheYearState))) :=
  if debt_structure = [] ∨ operating_model = [] then none
  else
    scheduleYears debt_structure operating_model
      (debt_structure.map (fun p => p.2.amount)) [1, 2, 3, 4, 5]

/-- The IRR formula shared by `exit_analysis` (line 284),
`sensitivity_analysis` (line 322) and `create_visualizations`:
`moic ** (1 / exit_year) - 1` if `moic > 0` else `-1`. -/
noncomputable def irrOf (moic : ℚ) (exit_year : ℕ) : ℝ :=
  if moic > 0 then Real.rpow (moic : ℝ) (1 / (exit_year : ℝ)) - 1 else -1

/-- One entry of `exit_analysis`'s `results`, fields in the dict's order. -/
structure ExitResult where
  exit_multiple : ℚ
  enterprise_value : ℚ
  remaining_debt : ℚ
  equity_value : ℚ
  moic : ℚ
  irr : ℝ

/-- `LBOAnalysis.exit_analysis`: guard (line 259) requiring operating model
and debt schedule, exit EBITDA and total remaining debt read at the exit
year, then one `ExitResult` per candidate multiple.  Note the `moic`
division is guarded by `sponsor_equity > 0` (line 283). -/
noncomputable def exit_analysis (sponsor_equity : ℚ)
    (operating_model : List OperatingYear)
    (debt_schedule : List (List (String × TrancheYearState)))
    (exit_multiples : List ℚ) (exit_year : ℕ) : Option (List ExitResult) :=
  if operating_model = [] ∨ debt_schedule = [] then none
  else do
    let oy ← operating_model.get? (exit_year - 1)
    let ys ← debt_schedule.get? (exit_year - 1)
    let exit_ebitda := oy.ebitda
    let total_remaining_debt := (ys.map (fun p => p.2.ending_balance)).sum
    pure (exit_multiples.map (fun multiple =>
      let enterprise_value := exit_ebitda * multiple
      let equity_value := max 0 (enterprise_value - total_remaining_debt)
      let moic :=
        if sponsor_equity > 0 then equity_value / sponsor_equity else 0
      { exit_multiple := multiple, enterprise_value := enterprise_value,
        remaining_debt := total_remaining_debt,
        equity_value := equity_value, moic := moic,
        irr := irrOf moic exit_year }))

/-- Python float division: raises `ZeroDivisionError` on a zero divisor. -/
def pyDiv (a b : ℚ) : Option ℚ := if b = 0 then none else some (a / b)

/-- One row of the `sensitivity_analysis` grid, fields in the dict's order. -/
structure SensRecord where
  revenue_adj : ℚ
  ebitda_adj : ℚ
  irr : ℝ
  moic : ℚ

/-- Left-to-right effectful map over `Option`, mirroring a Python loop that
appends one record per element and propagates the first failure. -/
def traverseOption {α β : Type} (f : α → Option β) :
    List α → Option (List β)
  | [] => some []
  | a :: as => do
    let b ← f a
    let bs ← traverseOption f as
    pure (b :: bs)

/-- One cell of the sensitivity grid (lines 314-329).  The `moic` division
by `sponsor_equity` (line 321) is NOT zero-guarded in the source, hence
`pyDiv`. -/
noncomputable def sensCell (sponsor_equity base_ebitda remaining_debt
    rev_adj ebitda_adj : ℚ) : Option SensRecord := do
  let adjusted_ebitda := base_ebitda * (1 + rev_adj) * (1 + ebitda_adj)
  let enterprise_value := adjusted_ebitda * 10.0
  let equity_value := max 0 (enterprise_value - remaining_debt)
  let moic ← pyDiv equity_value sponsor_equity
  pure { revenue_adj := rev_adj, ebitda_adj := ebitda_adj,
         irr := irrOf moic 5, moic := moic }

/-- `LBOAnalysis.sensitivity_analysis`: guard (line 305) requiring a
nonempty returns analysis, anchor on the `'10.0x'` base case, base year-5
EBITDA, then the nested revenue-outer / ebitda-inner sweep. -/
noncomputable def sensitivity_analysis (sponsor_equity : ℚ)
    (operating_model : List OperatingYear)
    (returns_analysis : List ExitResult)
    (revenue_sensitivity ebitda_sensitivity : List ℚ) :
    Option (List SensRecord) :=
  if returns_analysis.isEmpty then none
  else do
    let base_case ← returns_analysis.find? (fun r => r.exit_multiple == 10)
    let oy5 ← operating_model.get? 4
    let rows ← traverseOption (fun rev_adj =>
      traverseOption (fun ebitda_adj =>
        sensCell sponsor_equity oy5.ebitda base_case.remaining_debt
          rev_adj ebitda_adj) ebitda_sensitivity) revenue_sensitivity
    pure rows.flatten

/-- The sensitivity cell value in the spec's words (claim C8): adjusted
EBITDA = base year-5 EBITDA × (1+rev_adj) × (1+ebitda_adj), enterprise
value = adjusted EBITDA × 10.0, MOIC = max(0, enterprise value − the fixed
remaining debt) / sponsor equity. -/
def specSensMoic (sponsor_equity base_ebitda remaining_debt r e : ℚ) : ℚ :=
  max 0 (base_ebitda * (1 + r) * (1 + e) * 10.0 - remaining_debt) /
    sponsor_equity

/-- The full sensitivity record prescribed by the spec for one cell. -/
noncomputable def specSensRecord (sponsor_equity base_ebitda remaining_debt
    r e : ℚ) : SensRecord :=
  { revenue_adj := r, ebitda_adj := e,
    irr := irrOf (specSensMoic sponsor_equity base_ebitda remaining_debt
      r e) 5,
    moic := specSensMoic sponsor_equity base_ebitda remaining_debt r e }

/-! ### Concrete fixtures used to instantiate the theorems -/

/-- Witness debt structure: €10M Term Loan A and €10M Term Loan B, with
zero rates and amortization so that all schedule arithmetic is integral. -/
def dsW : List (String × Tranche) :=
  [("Term Loan A", ⟨10, 0, 7, 0, 1⟩), ("Term Loan B", ⟨10, 0, 8, 0, 2⟩)]

/-- Witness operating year with €5M free cash flow (the scheduler reads
only the free cash flow of an operating year). -/
def oyW : OperatingYear := ⟨0, 0, 0, 0, 0, 0, 0, 0, 0, 0, 0, 5⟩

/-- Witness five-year operating model. -/
def omW : List OperatingYear := [oyW, oyW, oyW, oyW, oyW]

/-- Year-1 row of the witness schedule: the €5M pool sweeps €5M of Term
Loan B after Term Loan A's zero mandatory payment. -/
def rowW1 : List (String × TrancheYearState) :=
  [("Term Loan A", ⟨10, 0, 0, 0, 0, 10⟩),
   ("Term Loan B", ⟨10, 0, 5, 5, 0, 5⟩)]

/-- Year-2 row of the witness schedule: the sweep retires Term Loan B. -/
def rowW2 : List (String × TrancheYearState) :=
  [("Term Loan A", ⟨10, 0, 0, 0, 0, 10⟩),
   ("Term Loan B", ⟨5, 0, 5, 5, 0, 0⟩)]

/-- Year-3-to-5 row of the witness schedule: Term Loan B stays at zero. -/
def rowW3 : List (String × TrancheYearState) :=
  [("Term Loan A", ⟨10, 0, 0, 0, 0, 10⟩),
   ("Term Loan B", ⟨0, 0, 0, 0, 0, 0⟩)]

/-- The five-year witness debt schedule produced by the scheduler. -/
def sW : List (List (String × TrancheYearState)) :=
  [rowW1, rowW2, rowW3, rowW3, rowW3]

/-- The Term Loan B entry of the witness schedule's first year. -/
def eW1 : String × TrancheYearState := ("Term Loan B", ⟨10, 0, 5, 5, 0, 5⟩)

/-- The Term Loan B entry of the witness schedule's second year. -/
def eW2 : String × TrancheYearState := ("Term Loan B", ⟨5, 0, 5, 5, 0, 0⟩)

/-- The Term Loan B tranche of the witness debt structure. -/
def pW : String × Tranche := ("Term Loan B", ⟨10, 0, 8, 0, 2⟩)

/-- A five-year debt schedule whose rows hold no tranches (its remaining
debt at any year is an empty sum). -/
def schedZ : List (List (String × TrancheYearState)) := [[], [], [], [], []]

/-- An all-zero operating year (zero revenue, zero free cash flow). -/
def zeroYear : OperatingYear := ⟨0, 0, 0, 0, 0, 0, 0, 0, 0, 0, 0, 0⟩

/-- Five all-zero operating years. -/
def omZ : List OperatingYear := [zeroYear, zeroYear, zeroYear, zeroYear,
  zeroYear]

/-- A returns analysis containing the base 10.0x exit scenario of an
all-zero run (as `exit_analysis` produces it at zero sponsor equity). -/
noncomputable def raZ : List ExitResult := [⟨10, 0, 0, 0, 0, irrOf 0 5⟩]

/-! ### Structural lemmas about the debt scheduler -/

/-- The states produced by one scheduler year are in bijection with its
input (tranche, balance) pairs. -/
theorem processTranches_length :
    ∀ (l : List ((String × Tranche) × ℚ)) (rc : ℚ),
      ((processTranches rc l).1).length = l.length
  | [], rc => rfl
  | ((nm, t), b) :: rest, rc => by
    simp [processTranches, processTranches_length rest]

/-- Characterization of the `j`-th state of one scheduler year: it is
`processTranche` applied to the pool left after the total payments of the
first `j` states have been subtracted from the year's starting cash. -/
theorem processTranches_get? :
    ∀ (l : List ((String × Tranche) × ℚ)) (rc : ℚ) (j : ℕ),
      ((processTranches rc l).1).get? j = (l.get? j).map (fun x =>
        (x.1.1, processTranche
          (rc - ((((processTranches rc l).1).take j).map
            (fun p => p.2.total_payment)).sum)
          x.1.1 x.1.2 x.2))
  | [], rc, j => by simp [processTranches]
  | ((nm, t), b) :: rest, rc, 0 => by
    simp [processTranches]
  | ((nm, t), b) :: rest, rc, j + 1 => by
    have ih := processTranches_get? rest
      (rc - (processTranche rc nm t b).total_payment) j
    simp only [processTranches, List.get?_cons_succ, List.take_succ_cons,
      List.map_cons, List.sum_cons, sub_add_eq_sub_sub] at ih ⊢
    exact ih

/-- Master inversion lemma for the year loop: every recorded year `i` of a
successful `scheduleYears` run is `processTranches` of that year's free
cash flow over the tranches zipped with balances that are the initial
balances (year 0) or the previous year's ending balances. -/
theorem scheduleYears_get?_some (ds : List (String × Tranche))
    (om : List OperatingYear) :
    ∀ (ys : List ℕ) (bal : List ℚ)
      (s : List (List (String × TrancheYearState))) (i : ℕ)
      (ry : List (String × TrancheYearState)),
      scheduleYears ds om bal ys = some s → s.get? i = some ry →
      ∃ (yi : ℕ) (oy : OperatingYear) (bal' : List ℚ),
        ys.get? i = some yi ∧ om.get? (yi - 1) = some oy ∧
        ry = (processTranches oy.free_cash_flow (ds.zip bal')).1 ∧
        (i = 0 → bal' = bal) ∧
        (∀ k, i = k + 1 → ∃ ry₀, s.get? k = some ry₀ ∧
          bal' = ry₀.map (fun p => p.2.ending_balance)) := by
  intro ys
  induction ys with
  | nil =>
    intro bal s i ry hs hr
    simp only [scheduleYears] at hs
    cases hs
    simp at hr
  | cons y yt ih =>
    intro bal s i ry hs hr
    simp only [scheduleYears] at hs
    cases hom : om.get? (y - 1) with
    | none => rw [hom] at hs; simp at hs
    | some oy =>
      rw [hom] at hs
      simp only [Option.bind_eq_bind, Option.some_bind] at hs
      cases hrec : scheduleYears ds om
          (((processTranches oy.free_cash_flow (ds.zip bal)).1).map
            (fun p => p.2.ending_balance)) yt with
      | none => rw [hrec] at hs; simp at hs
      | some rest =>
        rw [hrec] at hs
        simp only [Option.bind_eq_bind, Option.some_bind, Option.pure_def,
          Option.some.injEq] at hs
        subst hs
        cases i with
        | zero =>
          cases hr
          exact ⟨y, oy, bal, by simp, hom, rfl, fun _ => rfl,
            fun k hk => (Nat.succ_ne_zero k hk.symm).elim⟩
        | succ j =>
          simp only [List.get?_cons_succ] at hr
          obtain ⟨yi, oy', bal', h1, h2, h3, h4, h5⟩ :=
            ih _ rest j ry hrec hr
          refine ⟨yi, oy', bal', by simpa using h1, h2, h3,
            fun h0 => (Nat.succ_ne_zero j h0).elim, ?_⟩
          intro k hk
          have hjk : j = k := by omega
          subst hjk
          cases j with
          | zero =>
            exact ⟨_, rfl, h4 rfl⟩
          | succ k' =>
            obtain ⟨ry₀, hg, hb⟩ := h5 k' rfl
            exact ⟨ry₀, by simpa using hg, hb⟩

/-- Specialization to `model_debt_schedule`: row `i` (year `i + 1`) of a
successful schedule is the waterfall over year `i`'s free cash flow, with
balances = principals for the first year and the previous row's ending
balances afterwards. -/
theorem model_debt_schedule_get?_some {ds : List (String × Tranche)}
    {om : List OperatingYear}
    {s : List (List (String × TrancheYearState))} {i : ℕ}
    {ry : List (String × TrancheYearState)}
    (h : model_debt_schedule ds om = some s) (hi : s.get? i = some ry) :
    ∃ (oy : OperatingYear) (bal' : List ℚ),
      om.get? i = some oy ∧
      ry = (processTranches oy.free_cash_flow (ds.zip bal')).1 ∧
      (i = 0 → bal' = ds.map (fun p => p.2.amount)) ∧
      (∀ k, i = k + 1 → ∃ ry₀, s.get? k = some ry₀ ∧
        bal' = ry₀.map (fun p => p.2.ending_balance)) := by
  rw [model_debt_schedule] at h
  split at h
  · cases h
  · obtain ⟨yi, oy, bal', h1, h2, h3, h4, h5⟩ :=
      scheduleYears_get?_some ds om [1, 2, 3, 4, 5] _ s i ry h hi
    have hlt : i < 5 := by
      have := List.get?_eq_some.mp h1
      simpa using this.1
    have hyi : yi = i + 1 := by
      interval_cases i <;> simp_all
    subst hyi
    simp only [Nat.add_sub_cancel] at h2
    exact ⟨oy, bal', h2, h3, h4, h5⟩

/-- Field values of one per-tranche record: the beginning balance is stored
unchanged. -/
theorem processTranche_beginning_balance (rc : ℚ) (nm : String) (t : Tranche)
    (b : ℚ) : (processTranche rc nm t b).beginning_balance = b := rfl

/-- The mandatory payment is the amortization share of the beginning
balance, capped at the beginning balance. -/
theorem processTranche_mandatory_payment (rc : ℚ) (nm : String) (t : Tranche)
    (b : ℚ) : (processTranche rc nm t b).mandatory_payment =
      min (b * t.amortization) b := rfl

/-- The optional payment as computed by the per-tranche loop body. -/
theorem processTranche_optional_payment (rc : ℚ) (nm : String) (t : Tranche)
    (b : ℚ) : (processTranche rc nm t b).optional_payment =
      if rc > min (b * t.amortization) b ∧ nm = "Term Loan B" then
        min (rc - min (b * t.amortization) b)
          (b - min (b * t.amortization) b)
      else 0 := rfl

/-- The ending balance is the beginning balance less the total payment,
floored at zero. -/
theorem processTranche_ending_balance (rc : ℚ) (nm : String) (t : Tranche)
    (b : ℚ) : (processTranche rc nm t b).ending_balance =
      max 0 (b - (processTranche rc nm t b).total_payment) := rfl

/-- Unpacking position `j` of one scheduler year: its name and terms come
from position `j` of the debt structure, its balance from position `j` of
the year's balance vector, and its state from `processTranche` at the pool
remaining after the preceding tranches' total payments. -/
theorem row_state_eq {ds : List (String × Tranche)} {bal' : List ℚ} {f : ℚ}
    {ry : List (String × TrancheYearState)} {j : ℕ} {n : String}
    {st : TrancheYearState}
    (hry : ry = (processTranches f (ds.zip bal')).1)
    (hj : ry.get? j = some (n, st)) :
    ∃ (t : Tranche) (b : ℚ), ds.get? j = some (n, t) ∧
      bal'.get? j = some b ∧
      st = processTranche
        (f - (((ry.take j).map (fun p => p.2.total_payment)).sum)) n t b := by
  subst hry
  rw [processTranches_get?] at hj
  obtain ⟨x, hzip, heq⟩ := Option.map_eq_some'.mp hj
  obtain ⟨hds, hbal⟩ := (List.get?_zip_eq_some ds bal' x j).mp hzip
  obtain ⟨⟨nm, t⟩, b⟩ := x
  simp only [Prod.mk.injEq] at heq
  obtain ⟨hn, hst⟩ := heq
  subst hn
  exact ⟨t, b, hds, hbal, hst.symm⟩

/-! ### Claims about the debt scheduler -/

/-- Claim C1: for every tranche and every year of the debt schedule, the
ending balance recorded for a year equals the beginning balance recorded
for the next year of that tranche, and each tranche's first-year beginning
balance equals its principal amount (balance continuity).  Year indices in
the schedule list are zero-based: position `y` holds schedule year `y+1`. -/
theorem c1_balance_continuity (ds : List (String × Tranche))
    (om : List OperatingYear)
    (s : List (List (String × TrancheYearState)))
    (y j : ℕ) (ry ry' r0 : List (String × TrancheYearState))
    (e e' e0 : String × TrancheYearState) (p : String × Tranche)
    (h : model_debt_schedule ds om = some s)
    (hy : s.get? y = some ry) (hy' : s.get? (y + 1) = some ry')
    (hj : ry.get? j = some e) (hj' : ry'.get? j = some e')
    (h0 : s.get? 0 = some r0) (h0j : r0.get? j = some e0)
    (hp : ds.get? j = some p) :
    e.2.ending_balance = e'.2.beginning_balance ∧
    e0.2.beginning_balance = p.2.amount := by
  constructor
  · obtain ⟨oy, bal', hom, hry', _, h5⟩ := model_debt_schedule_get?_some h hy'
    obtain ⟨ry₀, hgy, hbal⟩ := h5 y rfl
    rw [hy] at hgy
    cases hgy
    obtain ⟨n', st'⟩ := e'
    obtain ⟨t, b, hds, hb, hst⟩ := row_state_eq hry' hj'
    subst hbal
    rw [List.get?_map, hj] at hb
    simp only [Option.map_some', Option.some.injEq] at hb
    subst hst
    exact hb
  · obtain ⟨oy, bal0, hom0, hr0, h40, _⟩ := model_debt_schedule_get?_some h h0
    obtain ⟨n0, st0⟩ := e0
    obtain ⟨t, b, hds, hb, hst⟩ := row_state_eq hr0 h0j
    rw [h40 rfl, List.get?_map, hp] at hb
    simp only [Option.map_some', Option.some.injEq] at hb
    subst hst
    exact hb.symm

/-- Claim C2: in every year of the schedule, a tranche not named
"Term Loan B" has optional payment 0; "Term Loan B" receives
`min(pool - mandatory, beginning - mandatory)` exactly when the cash pool
remaining at its turn exceeds its mandatory payment (and 0 otherwise),
where the pool starts at that year's free cash flow and is decremented by
each preceding tranche's total payment in insertion order. -/
theorem c2_term_loan_b_sweep (ds : List (String × Tranche))
    (om : List OperatingYear)
    (s : List (List (String × TrancheYearState)))
    (y j : ℕ) (ry : List (String × TrancheYearState)) (oy : OperatingYear)
    (e : String × TrancheYearState)
    (h : model_debt_schedule ds om = some s)
    (hy : s.get? y = some ry) (hoy : om.get? y = some oy)
    (hj : ry.get? j = some e) :
    (e.1 ≠ "Term Loan B" → e.2.optional_payment = 0) ∧
    (e.1 = "Term Loan B" →
      e.2.optional_payment =
        if oy.free_cash_flow -
            (((ry.take j).map (fun p => p.2.total_payment)).sum) >
            e.2.mandatory_payment then
          min ((oy.free_cash_flow -
              (((ry.take j).map (fun p => p.2.total_payment)).sum)) -
            e.2.mandatory_payment)
            (e.2.beginning_balance - e.2.mandatory_payment)
        else 0) := by
  obtain ⟨oy', bal', hom, hry, _, _⟩ := model_debt_schedule_get?_some h hy
  rw [hoy] at hom
  cases hom
  obtain ⟨n, st⟩ := e
  obtain ⟨t, b, hds, hb, hst⟩ := row_state_eq hry hj
  simp only at hst ⊢
  constructor
  · intro hn
    rw [hst, processTranche_optional_payment, if_neg]
    rintro ⟨-, hn'⟩
    exact hn hn'
  · intro hn
    rw [hst, processTranche_optional_payment,
      processTranche_mandatory_payment, processTranche_beginning_balance]
    simp only [hn, and_true]

/-- Claim C9: for every tranche and every year of the debt schedule, the
ending balance is nonnegative and the mandatory payment does not exceed
the beginning balance. -/
theorem c9_schedule_bounds (ds : List (String × Tranche))
    (om : List OperatingYear)
    (s : List (List (String × TrancheYearState)))
    (y j : ℕ) (ry : List (String × TrancheYearState))
    (e : String × TrancheYearState)
    (h : model_debt_schedule ds om = some s)
    (hy : s.get? y = some ry) (hj : ry.get? j = some e) :
    0 ≤ e.2.ending_balance ∧
    e.2.mandatory_payment ≤ e.2.beginning_balance := by
  obtain ⟨oy, bal', hom, hry, _, _⟩ := model_debt_schedule_get?_some h hy
  obtain ⟨n, st⟩ := e
  obtain ⟨t, b, hds, hb, hst⟩ := row_state_eq hry hj
  simp only at hst ⊢
  constructor
  · rw [hst, processTranche_ending_balance]
    exact le_max_left 0 _
  · rw [hst, processTranche_mandatory_payment,
      processTranche_beginning_balance]
    exact min_le_right _ _

/-- Claim C10: in every year, each tranche's mandatory payment equals its
beginning balance times its amortization rate, capped at the beginning
balance — a formula in which the year's free cash flow does not occur (the
theorem holds for every operating model, in particular for years with
negative free cash flow or an exhausted pool); the record's name is the
structure's name at the same position. -/
theorem c10_mandatory_formula (ds : List (String × Tranche))
    (om : List OperatingYear)
    (s : List (List (String × TrancheYearState)))
    (y j : ℕ) (ry : List (String × TrancheYearState))
    (e : String × TrancheYearState) (p : String × Tranche)
    (h : model_debt_schedule ds om = some s)
    (hy : s.get? y = some ry) (hj : ry.get? j = some e)
    (hp : ds.get? j = some p) :
    e.1 = p.1 ∧
    e.2.mandatory_payment =
      min (e.2.beginning_balance * p.2.amortization) e.2.beginning_balance := by
  obtain ⟨oy, bal', hom, hry, _, _⟩ := model_debt_schedule_get?_some h hy
  obtain ⟨n, st⟩ := e
  obtain ⟨t, b, hds, hb, hst⟩ := row_state_eq hry hj
  rw [hds] at hp
  cases hp
  subst hst
  exact ⟨rfl, rfl⟩

/-! ### Claims about the operating projector -/

/-- Position `k` of any successful `buildModelAux` run starting at `year`
holds a record whose interest expense is `interestExpense` at year
`year + k`. -/
theorem buildModelAux_interest (ds : List (String × Tranche))
    (base : ℚ) (g : List ℚ) (m cr nr tr : ℚ) :
    ∀ (n : ℕ) (prev : ℚ) (year : ℕ) (l : List OperatingYear) (k : ℕ)
      (oy : OperatingYear),
      buildModelAux ds base g m cr nr tr prev year n = some l →
      l.get? k = some oy →
      oy.interest_expense = interestExpense ds (year + k) := by
  intro n
  induction n with
  | zero =>
    intro prev year l k oy hs hk
    simp only [buildModelAux] at hs
    cases hs
    simp at hk
  | succ n ih =>
    intro prev year l k oy hs hk
    simp only [buildModelAux] at hs
    cases hrev : (if year = 1 then some base
        else Option.map (fun g' => prev * (1 + g'))
          (growthAt g (year - 2))) with
    | none => rw [hrev] at hs; simp at hs
    | some rev =>
      rw [hrev] at hs
      simp only [Option.bind_eq_bind, Option.some_bind] at hs
      cases hrec : buildModelAux ds base g m cr nr tr rev (year + 1) n with
      | none => rw [hrec] at hs; simp at hs
      | some rest =>
        rw [hrec] at hs
        simp only [Option.bind_eq_bind, Option.some_bind, Option.pure_def,
          Option.some.injEq] at hs
        subst hs
        cases k with
        | zero =>
          cases hk
          simp [mkYear]
        | succ k' =>
          simp only [List.get?_cons_succ] at hk
          have hky : year + 1 + k' = year + (k' + 1) := by omega
          rw [ih rev (year + 1) rest k' oy hrec hk, hky]

/-- Claim C5: with a debt structure set, year `N`'s interest expense equals
total tranche principal times the principal-weighted average rate times
`0.9 ^ (N - 1)`; a zero total principal yields zero interest expense (and
no division by zero occurs: the quotient is guarded in the source). -/
theorem c5_interest_expense (ds : List (String × Tranche))
    (base : ℚ) (g : List ℚ) (m cr nr tr : ℚ)
    (om : List OperatingYear) (N : ℕ) (oy : OperatingYear)
    (h : build_operating_model ds base g m cr nr tr = some om)
    (hds : ds ≠ []) (hN : 1 ≤ N)
    (hoy : om.get? (N - 1) = some oy)
    (htot : 0 ≤ (ds.map (fun p => p.2.amount)).sum) :
    oy.interest_expense =
      (ds.map (fun p => p.2.amount)).sum *
        ((ds.map (fun p => p.2.amount * p.2.rate)).sum /
          (ds.map (fun p => p.2.amount)).sum) * (0.9 : ℚ) ^ (N - 1) ∧
    ((ds.map (fun p => p.2.amount)).sum = 0 → oy.interest_expense = 0) := by
  rw [build_operating_model] at h
  have hie := buildModelAux_interest ds base g m cr nr tr 5 0 1 om (N - 1)
    oy h hoy
  have h1 : 1 + (N - 1) - 1 = N - 1 := by omega
  simp only [interestExpense, h1] at hie
  rw [if_neg hds] at hie
  rcases eq_or_lt_of_le htot with hzero | hpos
  · rw [if_neg (by rw [← hzero]; exact lt_irrefl 0)] at hie
    constructor
    · rw [hie, ← hzero]; ring
    · intro _; rw [hie, ← hzero]; ring
  · rw [if_pos hpos] at hie
    exact ⟨hie, fun h0 => absurd h0.symm (ne_of_lt hpos)⟩

/-- Claim C7: with an empty growth-rate sequence (the engine always
requests the fixed five projection years, hence more than one year),
`build_operating_model` fails: the Python `revenue_growth[-1]` fallback
raises `IndexError` at year 2. -/
theorem c7_empty_growth_fails (ds : List (String × Tranche))
    (base m cr nr tr : ℚ) :
    build_operating_model ds base [] m cr nr tr = none := rfl

/-! ### Claims about ordering guards and the exit evaluator -/

/-- Claim C6: `model_debt_schedule` returns `none` (no partial or stale
result) when the debt structure or the operating model is missing, and
`sensitivity_analysis` returns `none` when no base 10.0x exit scenario
exists in the returns analysis. -/
theorem c6_state_errors (ds : List (String × Tranche))
    (om : List OperatingYear) (ra : List ExitResult) (se : ℚ)
    (rs es : List ℚ)
    (h1 : ds = [] ∨ om = [])
    (h2 : ra.find? (fun r => r.exit_multiple == 10) = none) :
    model_debt_schedule ds om = none ∧
    sensitivity_analysis se om ra rs es = none := by
  constructor
  · rw [model_debt_schedule, if_pos h1]
  · cases ra with
    | nil => rfl
    | cons r ra' => simp [sensitivity_analysis, h2]

/-- Claim C3: every result of `exit_analysis` satisfies
`enterprise_value = exit_ebitda * multiple`,
`equity_value = max 0 (enterprise_value - remaining_debt)` with
`remaining_debt` the sum of all tranches' ending balances at the exit year,
`moic = equity_value / sponsor_equity` with 0 substituted at zero sponsor
equity, and `irr = moic ^ (1 / exit_year) - 1` when `moic > 0`, exactly
`-1` otherwise.  Sponsor equity is a nonnegative input (the spec's deal
parameters make it a positive amount). -/
theorem c3_exit_analysis (se : ℚ) (om : List OperatingYear)
    (sched : List (List (String × TrancheYearState)))
    (ms : List ℚ) (ey : ℕ) (res : List ExitResult) (oy : OperatingYear)
    (ys : List (String × TrancheYearState))
    (h : exit_analysis se om sched ms ey = some res)
    (hoy : om.get? (ey - 1) = some oy)
    (hys : sched.get? (ey - 1) = some ys)
    (hse : 0 ≤ se) :
    res.length = ms.length ∧
    ∀ (k : ℕ) (mult : ℚ) (r : ExitResult), ms.get? k = some mult →
      res.get? k = some r →
      r.exit_multiple = mult ∧
      r.enterprise_value = oy.ebitda * mult ∧
      r.remaining_debt = (ys.map (fun p => p.2.ending_balance)).sum ∧
      r.equity_value = max 0 (r.enterprise_value - r.remaining_debt) ∧
      r.moic = (if se = 0 then 0 else r.equity_value / se) ∧
      (r.moic > 0 →
        r.irr = Real.rpow (r.moic : ℝ) (1 / (ey : ℝ)) - 1) ∧
      (¬ r.moic > 0 → r.irr = -1) := by
  have hguard : ¬(om = [] ∨ sched = []) := by
    rintro (h' | h')
    · subst h'; simp at hoy
    · subst h'; simp at hys
  rw [exit_analysis, if_neg hguard, hoy, hys] at h
  simp only [Option.bind_eq_bind, Option.some_bind, Option.pure_def,
    Option.some.injEq] at h
  subst h
  refine ⟨List.length_map _ _, ?_⟩
  intro k mult r hmk hrk
  rw [List.get?_map, hmk] at hrk
  simp only [Option.map_some', Option.some.injEq] at hrk
  subst hrk
  refine ⟨rfl, rfl, rfl, rfl, ?_, ?_, ?_⟩
  · rcases eq_or_lt_of_le hse with h0 | hpos
    · show (if se > 0 then _ / se else 0) = _
      rw [if_neg (by rw [← h0]; exact lt_irrefl 0), if_pos h0.symm]
    · show (if se > 0 then _ / se else 0) = _
      rw [if_pos hpos, if_neg (ne_of_gt hpos)]
  · intro hmo
    show irrOf _ ey = _
    rw [irrOf, if_pos hmo]
  · intro hmo
    show irrOf _ ey = _
    rw [irrOf, if_neg hmo]

/-- Claim C8: over the default adjustment grids, `sensitivity_analysis`
produces exactly the 9 records of the Cartesian product, revenue
adjustment outer and EBITDA adjustment inner, each cell following the
spec's adjusted-EBITDA / 10.0x-enterprise-value / fixed-remaining-debt
formula (`specSensRecord`). -/
theorem c8_sensitivity_grid (se : ℚ) (om : List OperatingYear)
    (ra : List ExitResult) (bc : ExitResult) (oy5 : OperatingYear)
    (hra : ra ≠ [])
    (hbc : ra.find? (fun r => r.exit_multiple == 10) = some bc)
    (hoy : om.get? 4 = some oy5)
    (hse : se ≠ 0) :
    sensitivity_analysis se om ra [-0.1, 0, 0.1] [-0.02, 0, 0.02] =
      some (([(-0.1, -0.02), (-0.1, 0), (-0.1, 0.02),
              (0, -0.02), (0, 0), (0, 0.02),
              (0.1, -0.02), (0.1, 0), (0.1, 0.02)] : List (ℚ × ℚ)).map
        (fun q => specSensRecord se oy5.ebitda bc.remaining_debt q.1 q.2)) := by
  have hraE : ra.isEmpty = false := by
    cases ra
    · exact absurd rfl hra
    · rfl
  simp only [sensitivity_analysis, hraE, Bool.false_eq_true, if_false, hbc,
    hoy, Option.bind_eq_bind, Option.some_bind, traverseOption, sensCell,
    pyDiv, hse, ite_false, Option.pure_def, Option.some.injEq,
    List.flatten, List.map_cons, List.map_nil, List.cons_append,
    List.nil_append, specSensRecord, specSensMoic]

/-- Claim C4 is refuted here: with zero sponsor equity the MOIC division
inside the sensitivity sweep (source line 321) is not guarded, so the
sweep fails (Python `ZeroDivisionError`) even though its preconditions
hold — the base 10.0x scenario exists and the operating model is present.
`exit_analysis` would have substituted zero at the same input. -/
theorem c4_counterexample :
    raZ.find? (fun r => r.exit_multiple == 10) =
      some ⟨10, 0, 0, 0, 0, irrOf 0 5⟩ ∧
    omZ.get? 4 = some zeroYear ∧
    sensitivity_analysis 0 omZ raZ [-0.1, 0, 0.1] [-0.02, 0, 0.02] =
      none := by
  refine ⟨by simp [raZ], rfl, ?_⟩
  simp [sensitivity_analysis, raZ, omZ, traverseOption, sensCell, pyDiv]

/-- Claim C4 as amended: the zero-total-debt division in the operating
model and the zero-sponsor-equity division in `exit_analysis` are guarded
by substituting zero, but the MOIC division inside the sensitivity sweep
is unguarded and fails at zero sponsor equity instead of substituting
zero. -/
theorem c4_amended_guards (ds : List (String × Tranche))
    (om : List OperatingYear)
    (sched : List (List (String × TrancheYearState)))
    (ms : List ℚ) (ey y : ℕ) (res : List ExitResult)
    (ra : List ExitResult) (r : ExitResult) (r0 e0 : ℚ) (rs' es' : List ℚ)
    (htot : (ds.map (fun p => p.2.amount)).sum = 0)
    (hex : exit_analysis 0 om sched ms ey = some res)
    (hr : r ∈ res) :
    interestExpense ds y = 0 ∧ r.moic = 0 ∧
    sensitivity_analysis 0 om ra (r0 :: rs') (e0 :: es') = none := by
  refine ⟨?_, ?_, ?_⟩
  · simp only [interestExpense]
    split
    · rfl
    · rw [htot]
      simp
  · simp only [exit_analysis] at hex
    split at hex
    · cases hex
    · cases hoy : om.get? (ey - 1) with
      | none => rw [hoy] at hex; simp at hex
      | some oy =>
        rw [hoy] at hex
        cases hys : sched.get? (ey - 1) with
        | none => rw [hys] at hex; simp at hex
        | some ys =>
          rw [hys] at hex
          simp only [Option.bind_eq_bind, Option.some_bind, Option.pure_def,
            Option.some.injEq] at hex
          subst hex
          obtain ⟨m, hm, heq⟩ := List.mem_map.mp hr
          subst heq
          norm_num
  · simp only [sensitivity_analysis]
    split
    · rfl
    · cases hbc : ra.find? (fun r' => r'.exit_multiple == 10) with
      | none => simp [hbc]
      | some bc =>
        cases hoy : om.get? 4 with
        | none => simp [hbc, hoy]
        | some oy5 => simp [hbc, hoy, traverseOption, sensCell, pyDiv]

/-! ### Witness instantiations -/

/-- The scheduler run on the witness inputs, evaluated. -/
theorem schedule_eval_W : model_debt_schedule dsW omW = some sW := by
  have hAB : "Term Loan A" ≠ "Term Loan B" := by decide
  norm_num [sW, dsW, omW, oyW, rowW1, rowW2, rowW3, model_debt_schedule,
    scheduleYears, processTranches, processTranche, min_def, max_def, hAB,
    List.cons_ne_nil]

theorem c1_balance_continuity_witness :
    eW1.2.ending_balance = eW2.2.beginning_balance ∧
    eW1.2.beginning_balance = pW.2.amount :=
  c1_balance_continuity dsW omW sW 0 1 rowW1 rowW2 rowW1 eW1 eW2 eW1 pW
    schedule_eval_W rfl rfl rfl rfl rfl rfl rfl

theorem c2_term_loan_b_sweep_witness :
    eW1.2.optional_payment =
      if oyW.free_cash_flow -
          (((rowW1.take 1).map (fun p => p.2.total_payment)).sum) >
          eW1.2.mandatory_payment then
        min ((oyW.free_cash_flow -
            (((rowW1.take 1).map (fun p => p.2.total_payment)).sum)) -
          eW1.2.mandatory_payment)
          (eW1.2.beginning_balance - eW1.2.mandatory_payment)
      else 0 :=
  (c2_term_loan_b_sweep dsW omW sW 0 1 rowW1 oyW eW1
    schedule_eval_W rfl rfl rfl).2 rfl

theorem c9_schedule_bounds_witness :
    0 ≤ eW1.2.ending_balance ∧
    eW1.2.mandatory_payment ≤ eW1.2.beginning_balance :=
  c9_schedule_bounds dsW omW sW 0 1 rowW1 eW1 schedule_eval_W rfl rfl

theorem c10_mandatory_formula_witness :
    eW1.1 = pW.1 ∧
    eW1.2.mandatory_payment =
      min (eW1.2.beginning_balance * pW.2.amortization)
        eW1.2.beginning_balance :=
  c10_mandatory_formula dsW omW sW 0 1 rowW1 eW1 pW
    schedule_eval_W rfl rfl rfl

theorem c5_interest_expense_witness :
    zeroYear.interest_expense =
      ((structure_debt 0 0 0 0).map (fun p => p.2.amount)).sum *
        (((structure_debt 0 0 0 0).map (fun p => p.2.amount * p.2.rate)).sum /
          ((structure_debt 0 0 0 0).map (fun p => p.2.amount)).sum) *
        (0.9 : ℚ) ^ (1 - 1) ∧
    zeroYear.interest_expense = 0 := by
  have h := c5_interest_expense (structure_debt 0 0 0 0) 0 [0] 0 0 0 0
    omZ 1 zeroYear
    (by norm_num [build_operating_model, buildModelAux, growthAt, mkYear,
      interestExpense, structure_debt, omZ, zeroYear, List.cons_ne_nil])
    (by simp [structure_debt]) le_rfl rfl
    (by norm_num [structure_debt])
  exact ⟨h.1, h.2 (by norm_num [structure_debt])⟩

theorem c6_state_errors_witness :
    model_debt_schedule [] [] = none ∧
    sensitivity_analysis 0 [] [] [] [] = none :=
  c6_state_errors [] [] [] 0 [] [] (Or.inl rfl) rfl

theorem c3_exit_analysis_witness :
    (⟨10, 0, 0, 0, 0, irrOf 0 5⟩ : ExitResult).exit_multiple = 10 ∧
    (⟨10, 0, 0, 0, 0, irrOf 0 5⟩ : ExitResult).enterprise_value =
      zeroYear.ebitda * 10 ∧
    (⟨10, 0, 0, 0, 0, irrOf 0 5⟩ : ExitResult).remaining_debt =
      (([] : List (String × TrancheYearState)).map
        (fun p => p.2.ending_balance)).sum ∧
    (⟨10, 0, 0, 0, 0, irrOf 0 5⟩ : ExitResult).equity_value =
      max 0 ((⟨10, 0, 0, 0, 0, irrOf 0 5⟩ : ExitResult).enterprise_value -
        (⟨10, 0, 0, 0, 0, irrOf 0 5⟩ : ExitResult).remaining_debt) ∧
    (⟨10, 0, 0, 0, 0, irrOf 0 5⟩ : ExitResult).moic =
      (if (1 : ℚ) = 0 then 0
       else (⟨10, 0, 0, 0, 0, irrOf 0 5⟩ : ExitResult).equity_value / 1) ∧
    (⟨10, 0, 0, 0, 0, irrOf 0 5⟩ : ExitResult).irr = -1 := by
  have h := (c3_exit_analysis 1 omZ schedZ [10] 5 raZ zeroYear []
    (by norm_num [exit_analysis, omZ, zeroYear, schedZ, raZ,
      List.cons_ne_nil])
    rfl rfl (by norm_num)).2 0 10 ⟨10, 0, 0, 0, 0, irrOf 0 5⟩ rfl rfl
  exact ⟨h.1, h.2.1, h.2.2.1, h.2.2.2.1, h.2.2.2.2.1,
    h.2.2.2.2.2.2 (by norm_num)⟩

theorem c8_sensitivity_grid_witness :
    sensitivity_analysis 1 omZ raZ [-0.1, 0, 0.1] [-0.02, 0, 0.02] =
      some (([(-0.1, -0.02), (-0.1, 0), (-0.1, 0.02),
              (0, -0.02), (0, 0), (0, 0.02),
              (0.1, -0.02), (0.1, 0), (0.1, 0.02)] : List (ℚ × ℚ)).map
        (fun q => specSensRecord 1 zeroYear.ebitda
          (⟨10, 0, 0, 0, 0, irrOf 0 5⟩ : ExitResult).remaining_debt
          q.1 q.2)) :=
  c8_sensitivity_grid 1 omZ raZ ⟨10, 0, 0, 0, 0, irrOf 0 5⟩ zeroYear
    (by simp [raZ]) (by simp [raZ, List.find?]) rfl one_ne_zero

theorem c4_amended_guards_witness :
    interestExpense (structure_debt 0 0 0 0) 3 = 0 ∧
    (⟨10, 0, 0, 0, 0, irrOf 0 5⟩ : ExitResult).moic = 0 ∧
    sensitivity_analysis 0 omZ raZ (-0.1 :: [0, 0.1]) (-0.02 :: [0, 0.02]) =
      none :=
  c4_amended_guards (structure_debt 0 0 0 0) omZ schedZ [10] 5 3 raZ raZ
    ⟨10, 0, 0, 0, 0, irrOf 0 5⟩ (-0.1) (-0.02) [0, 0.1] [0, 0.02]
    (by norm_num [structure_debt])
    (by norm_num [exit_analysis, omZ, zeroYear, schedZ, raZ,
      List.cons_ne_nil])
    (by simp [raZ])
